import Mathlib

/-
Verification of the covered-call strategy derivation engine of the
Crypto-Covered-Call-Scanner repository (src/main.py), as a shallow
embedding in Lean 4.

Prices and premiums are modelled as rationals (the Python code uses
floats; every property checked here is algebraic, not a rounding
property).  Dates are modelled as integer day numbers: the day-count
of an expiration d relative to a reference day r is d - r, matching
the (exp_date - today).days computation of the source.  Missing or
NaN fields are modelled as Option values.  The Python dictionaries
returned by get_covered_call_strategies are modelled as association
lists of string keys, so that the presence or absence of a key is a
provable statement.
-/

namespace CoveredCallScanner

/-- Value type for entries of the result dictionaries built at
src/main.py lines 154-163 and 184-191. -/
inductive PyVal where
  | str : String → PyVal
  | num : ℚ → PyVal
  | onum : Option ℚ → PyVal
  | intVal : Int → PyVal
  | records : List (List (String × ℚ)) → PyVal
deriving DecidableEq

/-- Raw Polygon call-option record, as read at src/main.py lines 94-104:
strike from details, bid and last_price from the last_quote object
(missing keys default to 0 via dict.get), implied volatility from the
greeks object, open interest from the contract object. -/
structure PolygonCall where
  strike : ℚ
  bid : Option ℚ
  last_price : Option ℚ
  greeks_iv : Option ℚ
  open_interest : Option ℚ
deriving DecidableEq

/-- Raw yfinance call-chain row, as used at src/main.py lines 149-152:
lastPrice and bid may be NaN (modelled as none). -/
structure YfCallRow where
  strike : ℚ
  lastPrice : Option ℚ
  bid : Option ℚ
  impliedVolatility : ℚ
  openInterest : ℚ
deriving DecidableEq

/-- Normalized priced candidate: one row of the DataFrame that reaches
the common processing at src/main.py line 171 (columns strike, premium,
impliedVolatility, openInterest). -/
structure PricedCandidate where
  strike : ℚ
  premium : ℚ
  impliedVolatility : ℚ
  openInterest : ℚ
deriving DecidableEq

/-- Python truthiness-based or on numbers: x or y yields x when x is
nonzero, else y. -/
def pyOr (x y : ℚ) : ℚ := if x = 0 then y else x

/-- Premium built by the Polygon path, src/main.py line 101:
last_quote.get(bid, 0) or last_quote.get(last_price, 0).  Note the
bid is consulted first and any nonzero bid (Python truthiness) wins. -/
def polygonPremium (r : PolygonCall) : ℚ :=
  pyOr (r.bid.getD 0) (r.last_price.getD 0)

/-- One row of the DataFrame built at src/main.py lines 99-104. -/
def polygonRecord (r : PolygonCall) : PricedCandidate :=
  ⟨r.strike, polygonPremium r, r.greeks_iv.getD 0, r.open_interest.getD 0⟩

/-- Polygon-path candidate list: build the DataFrame rows, then keep
rows with premium strictly positive (src/main.py lines 106-107). -/
def polygonCandidates (rs : List PolygonCall) : List PricedCandidate :=
  (rs.map polygonRecord).filter fun c => decide (0 < c.premium)

/-- Resolved premium of one Polygon record as an Option: some p when
the record survives the premium filter with premium p, none when it
is dropped. -/
def polygonResolvedPremium (r : PolygonCall) : Option ℚ :=
  if 0 < polygonPremium r then some (polygonPremium r) else none

/-- Premium assigned by the yfinance path, src/main.py line 151:
lastPrice filled with bid where lastPrice is NaN.  A present lastPrice
wins even when it is zero or negative. -/
def yfPremium (r : YfCallRow) : Option ℚ :=
  r.lastPrice.orElse fun _ => r.bid

/-- yfinance-path candidate list: assign the premium column, then keep
rows whose premium is strictly positive; a NaN premium compares false
and is dropped (src/main.py lines 151-152). -/
def yfCandidates (rows : List YfCallRow) : List PricedCandidate :=
  rows.filterMap fun r =>
    match yfPremium r with
    | some p => if 0 < p then some ⟨r.strike, p, r.impliedVolatility, r.openInterest⟩ else none
    | none => none

/-- Resolved premium of one yfinance row as an Option: some p when the
row survives the filter with premium p, none when it is dropped. -/
def yfResolvedPremium (r : YfCallRow) : Option ℚ :=
  match yfPremium r with
  | some p => if 0 < p then some p else none
  | none => none

/-- Premium resolution rule as the specification words it (section 4.2
Step 1): last_price when present and strictly positive, else bid when
present and strictly positive, else absent.  Stated only to be compared
against the premium resolution the source actually performs. -/
def specResolvePremium (lp bid : Option ℚ) : Option ℚ :=
  match lp with
  | some l => if 0 < l then some l else
      match bid with
      | some b => if 0 < b then some b else none
      | none => none
  | none =>
      match bid with
      | some b => if 0 < b then some b else none
      | none => none

/-- Descending-strike comparison used by sort_values with ascending
false at src/main.py line 171. -/
def strikeDescLe (a b : PricedCandidate) : Prop := b.strike ≤ a.strike

/-- Ascending-strike comparison used by sort_values at line 172. -/
def strikeAscLe (a b : PricedCandidate) : Prop := a.strike ≤ b.strike

instance : DecidableRel strikeDescLe :=
  fun a b => inferInstanceAs (Decidable (b.strike ≤ a.strike))

instance : DecidableRel strikeAscLe :=
  fun a b => inferInstanceAs (Decidable (a.strike ≤ b.strike))

instance : IsTotal PricedCandidate strikeDescLe :=
  ⟨fun a b => le_total b.strike a.strike⟩

instance : IsTrans PricedCandidate strikeDescLe :=
  ⟨fun _ _ _ h1 h2 => le_trans h2 h1⟩

instance : IsTotal PricedCandidate strikeAscLe :=
  ⟨fun a b => le_total a.strike b.strike⟩

instance : IsTrans PricedCandidate strikeAscLe :=
  ⟨fun _ _ _ h1 h2 => le_trans h1 h2⟩

/-- ITM bucket, src/main.py line 171: rows with strike below the
current price, sorted by strike descending, first 2 kept. -/
def itmCalls (c : ℚ) (xs : List PricedCandidate) : List PricedCandidate :=
  (List.insertionSort strikeDescLe (xs.filter fun r => decide (r.strike < c))).take 2

/-- OTM bucket, src/main.py line 172: rows with strike above the
current price, sorted by strike ascending, first 5 kept. -/
def otmCalls (c : ℚ) (xs : List PricedCandidate) : List PricedCandidate :=
  (List.insertionSort strikeAscLe (xs.filter fun r => decide (c < r.strike))).take 5

/-- Full row after the metric columns are added, src/main.py
lines 175-178. -/
structure StrategyRow where
  strike : ℚ
  premium : ℚ
  impliedVolatility : ℚ
  openInterest : ℚ
  cap_gain : ℚ
  total_return_pct : ℚ
  premium_yield_pct : ℚ
  downside_breakeven : ℚ
deriving DecidableEq

/-- Metric derivation, src/main.py lines 175-178: cap_gain is strike
minus current price, total_return_pct is premium plus cap_gain over
current price times 100, premium_yield_pct is premium over current
price times 100, downside_breakeven is current price minus premium. -/
def deriveMetrics (c : ℚ) (r : PricedCandidate) : StrategyRow :=
  ⟨r.strike, r.premium, r.impliedVolatility, r.openInterest,
   r.strike - c,
   (r.premium + (r.strike - c)) / c * 100,
   r.premium / c * 100,
   c - r.premium⟩

/-- Concatenated ITM-then-OTM sequence with metrics, src/main.py
lines 171-178. -/
def strategiesSeq (c : ℚ) (xs : List PricedCandidate) : List StrategyRow :=
  (itmCalls c xs ++ otmCalls c xs).map (deriveMetrics c)

/-- Column selection and record conversion, src/main.py lines 180-182:
exactly seven columns survive; cap_gain is not among them. -/
def strategyRecord (row : StrategyRow) : List (String × ℚ) :=
  [("strike", row.strike), ("premium", row.premium),
   ("impliedVolatility", row.impliedVolatility),
   ("openInterest", row.openInterest),
   ("total_return_pct", row.total_return_pct),
   ("premium_yield_pct", row.premium_yield_pct),
   ("downside_breakeven", row.downside_breakeven)]

/-- Success dictionary returned at src/main.py lines 184-191. -/
def successDict (ticker : String) (c : ℚ) (hi lo : Option ℚ) (exp : Int)
    (strategies : List (List (String × ℚ))) : List (String × PyVal) :=
  [("ticker", PyVal.str ticker), ("current_price", PyVal.num c),
   ("week52_high", PyVal.onum hi), ("week52_low", PyVal.onum lo),
   ("expiration", PyVal.intVal exp), ("strategies", PyVal.records strategies)]

/-- Empty-result dictionary returned at src/main.py lines 155-163 when
every yfinance row is filtered out. -/
def emptyResultDict (ticker : String) (c : ℚ) (hi lo : Option ℚ) (exp : Int) :
    List (String × PyVal) :=
  [("ticker", PyVal.str ticker), ("current_price", PyVal.num c),
   ("week52_high", PyVal.onum hi), ("week52_low", PyVal.onum lo),
   ("expiration", PyVal.intVal exp), ("strategies", PyVal.records []),
   ("message", PyVal.str "No calls with positive bid/last price (yfinance fallback).")]

/-- Error dictionary shape returned at src/main.py lines 125, 134, 146
and 168. -/
def errorDict (msg : String) : List (String × PyVal) :=
  [("error", PyVal.str msg)]

/-- Common processing of a priced candidate list into the success
dictionary, src/main.py lines 171-191. -/
def commonProcessing (ticker : String) (c : ℚ) (hi lo : Option ℚ) (exp : Int)
    (callsDf : List PricedCandidate) : List (String × PyVal) :=
  successDict ticker c hi lo exp ((strategiesSeq c callsDf).map strategyRecord)

/-- yfinance branch from the premium assignment to the returned
dictionary, src/main.py lines 151-163 joined with 171-191. -/
def yfDerive (ticker : String) (c : ℚ) (hi lo : Option ℚ) (exp : Int)
    (rows : List YfCallRow) : List (String × PyVal) :=
  let calls := yfCandidates rows
  if calls.isEmpty then emptyResultDict ticker c hi lo exp
  else commonProcessing ticker c hi lo exp calls

/-- Window test for one candidate expiration: 20 <= days <= 40 with
days = d - refDay, src/main.py lines 74-75 and 140-141, generalized
over the window bounds. -/
def inWindow (refDay minDays maxDays d : Int) : Bool :=
  decide (minDays ≤ d - refDay ∧ d - refDay ≤ maxDays)

/-- Expiration scan loop, src/main.py lines 71-77 and 137-143: first
candidate of the list, in the order given, whose day-count lies in the
closed window. -/
def selectExpiration (refDay minDays maxDays : Int) (avail : List Int) : Option Int :=
  avail.find? (inWindow refDay minDays maxDays)

/-- Polygon-path selector, src/main.py line 64 followed by 71-77: the
candidate list is deduplicated and sorted ascending (sorted(set(...)))
before the scan loop runs. -/
def polygonSelect (refDay minDays maxDays : Int) (avail : List Int) : Option Int :=
  selectExpiration refDay minDays maxDays
    (List.insertionSort (fun a b : Int => a ≤ b) avail.dedup)

/-- Market data consumed by one per-ticker polygon-path scan: current
price, 52-week range, the available expirations and the call chain per
expiration. -/
structure MarketSnapshot where
  currentPrice : ℚ
  week52High : Option ℚ
  week52Low : Option ℚ
  expirations : List Int
  chains : List (Int × List PolygonCall)
deriving DecidableEq

/-- One per-ticker core scan along the Polygon path, src/main.py
lines 64-109 joined with 171-191: the reference day (datetime.now()
at line 70) is an explicit parameter here, since the embedding is a
pure function; in the source it is read from the wall clock inside
the call.  The three raise sites are modelled as error records: empty
expirations raise at lines 66-67, no in-window expiration raises at
lines 79-80, and an empty call chain for the selected expiration
raises at lines 90-91 (in the source each raise becomes a
RuntimeError that triggers the yfinance fallback); only a nonempty
chain reaches the premium filter and the common processing. -/
def coreScan (today : Int) (ticker : String) (m : MarketSnapshot) :
    List (String × PyVal) :=
  if m.expirations.isEmpty then errorDict "No options expirations found"
  else
    match polygonSelect today 20 40 m.expirations with
    | none => errorDict "No suitable expiration"
    | some exp =>
        let calls := (m.chains.lookup exp).getD []
        if calls.isEmpty then errorDict "No call options"
        else
          commonProcessing ticker m.currentPrice m.week52High m.week52Low exp
            (polygonCandidates calls)

/- Helper lemmas shared by the claim theorems. -/

theorem mem_itmCalls {c : ℚ} {xs : List PricedCandidate} {r : PricedCandidate}
    (h : r ∈ itmCalls c xs) : r ∈ xs ∧ r.strike < c := by
  unfold itmCalls at h
  have h1 := List.mem_of_mem_take h
  rw [List.mem_insertionSort] at h1
  have h2 := List.mem_filter.mp h1
  exact ⟨h2.1, of_decide_eq_true h2.2⟩

theorem mem_otmCalls {c : ℚ} {xs : List PricedCandidate} {r : PricedCandidate}
    (h : r ∈ otmCalls c xs) : r ∈ xs ∧ c < r.strike := by
  unfold otmCalls at h
  have h1 := List.mem_of_mem_take h
  rw [List.mem_insertionSort] at h1
  have h2 := List.mem_filter.mp h1
  exact ⟨h2.1, of_decide_eq_true h2.2⟩

theorem mem_strategiesSeq {c : ℚ} {xs : List PricedCandidate} {row : StrategyRow}
    (h : row ∈ strategiesSeq c xs) :
    ∃ cand, cand ∈ xs ∧ (cand.strike < c ∨ c < cand.strike) ∧ row = deriveMetrics c cand := by
  unfold strategiesSeq at h
  obtain ⟨cand, hmem, heq⟩ := List.mem_map.mp h
  rcases List.mem_append.mp hmem with hitm | hotm
  · obtain ⟨hx, hlt⟩ := mem_itmCalls hitm
    exact ⟨cand, hx, Or.inl hlt, heq.symm⟩
  · obtain ⟨hx, hgt⟩ := mem_otmCalls hotm
    exact ⟨cand, hx, Or.inr hgt, heq.symm⟩

theorem mem_polygonCandidates {rs : List PolygonCall} {cand : PricedCandidate}
    (h : cand ∈ polygonCandidates rs) :
    0 < cand.premium ∧ ∃ r ∈ rs, cand = polygonRecord r := by
  unfold polygonCandidates at h
  have h2 := List.mem_filter.mp h
  obtain ⟨r, hr, heq⟩ := List.mem_map.mp h2.1
  exact ⟨of_decide_eq_true h2.2, r, hr, heq.symm⟩

theorem mem_yfCandidates {rows : List YfCallRow} {cand : PricedCandidate}
    (h : cand ∈ yfCandidates rows) :
    0 < cand.premium ∧ ∃ r ∈ rows, yfResolvedPremium r = some cand.premium ∧ cand.strike = r.strike := by
  unfold yfCandidates at h
  obtain ⟨r, hr, heq⟩ := List.mem_filterMap.mp h
  cases hp : yfPremium r with
  | none => rw [hp] at heq; exact absurd heq (by simp)
  | some p =>
    rw [hp] at heq
    dsimp only at heq
    by_cases hpos : 0 < p
    · rw [if_pos hpos] at heq
      obtain rfl := Option.some_inj.mp heq
      refine ⟨hpos, r, hr, ?_, rfl⟩
      unfold yfResolvedPremium
      rw [hp]
      dsimp only
      rw [if_pos hpos]
    · rw [if_neg hpos] at heq
      exact absurd heq (by simp)

/- Example records used by concrete instances below. -/

/-- Polygon record with both a positive bid and a positive last trade
price, used to exhibit the bid-first resolution order. -/
def pcBidFirst : PolygonCall := ⟨50, some 1, some 5, none, none⟩

/-- Claim C1, counterexample.  The Polygon path resolves the premium
bid-first (src/main.py line 101), not last-price-first as claimed: on a
record with bid 1 and last price 5 the surviving premium is 1, while the
rule the claim states resolves 5. -/
theorem premium_rule_cex :
    polygonResolvedPremium pcBidFirst = some 1 ∧
    specResolvePremium pcBidFirst.last_price pcBidFirst.bid = some 5 ∧
    polygonResolvedPremium pcBidFirst ≠ specResolvePremium pcBidFirst.last_price pcBidFirst.bid := by
  refine ⟨by decide, by decide, by decide⟩

/-- Claim C1 (amended): the Polygon path resolves the premium as bid
when the bid is present and nonzero, else last price; the yfinance path
resolves it as last price whenever present (with no fallback to bid for
a nonpositive last price), else bid; on both paths every surviving
candidate has a strictly positive premium and records that cannot
resolve a positive premium are dropped from the candidate list; the ask
and any bid/ask midpoint are never consulted. -/
theorem premium_resolution_amended :
    (∀ rs : List PolygonCall,
        polygonCandidates rs =
          (rs.filter fun r => decide (0 < polygonPremium r)).map polygonRecord) ∧
    (∀ rs : List PolygonCall, ∀ cand ∈ polygonCandidates rs, 0 < cand.premium) ∧
    (∀ r : PolygonCall, r.bid.getD 0 ≠ 0 → polygonPremium r = r.bid.getD 0) ∧
    (∀ r : PolygonCall, r.bid.getD 0 = 0 → polygonPremium r = r.last_price.getD 0) ∧
    (∀ r : PolygonCall, polygonResolvedPremium r = none ↔ polygonPremium r ≤ 0) ∧
    (∀ (r : YfCallRow) (l : ℚ), r.lastPrice = some l → yfPremium r = some l) ∧
    (∀ r : YfCallRow, r.lastPrice = none → yfPremium r = r.bid) ∧
    (∀ rows : List YfCallRow, ∀ cand ∈ yfCandidates rows, 0 < cand.premium) := by
  refine ⟨?_, ?_, ?_, ?_, ?_, ?_, ?_, ?_⟩
  · intro rs
    rw [polygonCandidates, List.filter_map]
    rfl
  · intro rs cand h
    exact (mem_polygonCandidates h).1
  · intro r hb
    unfold polygonPremium pyOr
    rw [if_neg hb]
  · intro r hb
    unfold polygonPremium pyOr
    rw [if_pos hb]
  · intro r
    unfold polygonResolvedPremium
    by_cases hp : 0 < polygonPremium r
    · rw [if_pos hp]
      constructor
      · intro hcontra
        exact absurd hcontra (Option.some_ne_none _)
      · intro hle
        exact absurd hp (not_lt.mpr hle)
    · rw [if_neg hp]
      constructor
      · intro _
        exact le_of_not_lt hp
      · intro _
        rfl
  · intro r l hl
    unfold yfPremium
    rw [hl]
    rfl
  · intro r hl
    unfold yfPremium
    rw [hl]
    rfl
  · intro rows cand h
    exact (mem_yfCandidates h).1

/-- Claim C1 witness: the amended priority rule applied to the concrete
record with bid 1 and last price 5 yields the bid. -/
theorem premium_resolution_amended_witness :
    polygonPremium pcBidFirst = pcBidFirst.bid.getD 0 :=
  premium_resolution_amended.2.2.1 pcBidFirst (by decide)

/-- Candidate list of spec property P4: strikes 80, 90, 95, 105, 110,
120, 130, 140, all with a valid premium. -/
def p4Input : List PricedCandidate :=
  [⟨80, 1, 0, 0⟩, ⟨90, 1, 0, 0⟩, ⟨95, 1, 0, 0⟩, ⟨105, 1, 0, 0⟩,
   ⟨110, 1, 0, 0⟩, ⟨120, 1, 0, 0⟩, ⟨130, 1, 0, 0⟩, ⟨140, 1, 0, 0⟩]

/-- Claim C2: the derived sequence is exactly the ITM bucket (strikes
strictly below the current price, sorted descending, at most 2 kept)
followed by the OTM bucket (strikes strictly above, sorted ascending,
at most 5 kept); a strike equal to the current price appears in
neither, and on the P4 example with current price 100 the emitted
strike order is 95, 90, 105, 110, 120, 130, 140. -/
theorem bucket_order_correct (c : ℚ) (xs : List PricedCandidate) :
    strategiesSeq c xs = (itmCalls c xs ++ otmCalls c xs).map (deriveMetrics c) ∧
    (∀ r ∈ itmCalls c xs, r ∈ xs ∧ r.strike < c) ∧
    (itmCalls c xs).Sorted strikeDescLe ∧
    (itmCalls c xs).length ≤ 2 ∧
    (∀ r ∈ otmCalls c xs, r ∈ xs ∧ c < r.strike) ∧
    (otmCalls c xs).Sorted strikeAscLe ∧
    (otmCalls c xs).length ≤ 5 ∧
    (∀ row ∈ strategiesSeq c xs, row.strike ≠ c) ∧
    (strategiesSeq 100 p4Input).map StrategyRow.strike =
      [95, 90, 105, 110, 120, 130, 140] := by
  refine ⟨rfl, ?_, ?_, ?_, ?_, ?_, ?_, ?_, by decide⟩
  · intro r h
    exact mem_itmCalls h
  · exact (List.sorted_insertionSort strikeDescLe _).sublist (List.take_sublist _ _)
  · exact List.length_take_le _ _
  · intro r h
    exact mem_otmCalls h
  · exact (List.sorted_insertionSort strikeAscLe _).sublist (List.take_sublist _ _)
  · exact List.length_take_le _ _
  · intro row hrow
    obtain ⟨cand, _, hside, rfl⟩ := mem_strategiesSeq hrow
    rcases hside with hlt | hgt
    · exact ne_of_lt hlt
    · exact ne_of_gt hgt

/-- Claim C2 witness: on the P4 example the candidate with strike 95
is in the ITM bucket and its strike is below the current price 100. -/
theorem bucket_order_correct_witness :
    (⟨95, 1, 0, 0⟩ : PricedCandidate) ∈ p4Input ∧ (95 : ℚ) < 100 :=
  (bucket_order_correct 100 p4Input).2.1 ⟨95, 1, 0, 0⟩ (by decide)

/-- Scenario candidate from the spec test scenario: strike 45,
premium 6, open interest 100, at current price 50. -/
def pc45 : PricedCandidate := ⟨45, 6, 0, 100⟩

/-- Claim C3: every row of the derived sequence satisfies the metric
identities cap_gain = strike - current_price, total_return_pct =
(premium + (strike - current_price)) / current_price * 100,
premium_yield_pct = premium / current_price * 100 and
downside_breakeven = current_price - premium, and the metric columns
are functions of strike, premium and current price only. -/
theorem metric_identities (c : ℚ) (xs : List PricedCandidate) (row : StrategyRow)
    (hc : 0 < c) (hrow : row ∈ strategiesSeq c xs) :
    row.cap_gain = row.strike - c ∧
    row.total_return_pct = (row.premium + (row.strike - c)) / c * 100 ∧
    row.premium_yield_pct = row.premium / c * 100 ∧
    row.downside_breakeven = c - row.premium ∧
    (∀ r₁ r₂ : PricedCandidate, r₁.strike = r₂.strike → r₁.premium = r₂.premium →
      (deriveMetrics c r₁).cap_gain = (deriveMetrics c r₂).cap_gain ∧
      (deriveMetrics c r₁).total_return_pct = (deriveMetrics c r₂).total_return_pct ∧
      (deriveMetrics c r₁).premium_yield_pct = (deriveMetrics c r₂).premium_yield_pct ∧
      (deriveMetrics c r₁).downside_breakeven = (deriveMetrics c r₂).downside_breakeven) := by
  obtain ⟨cand, _, _, rfl⟩ := mem_strategiesSeq hrow
  refine ⟨rfl, rfl, rfl, rfl, ?_⟩
  intro r₁ r₂ hs hp
  unfold deriveMetrics
  rw [hs, hp]
  exact ⟨rfl, rfl, rfl, rfl⟩

/-- Claim C3 witness: the scenario row at current price 50 with strike
45 and premium 6 satisfies the downside breakeven identity. -/
theorem metric_identities_witness :
    (deriveMetrics 50 pc45).downside_breakeven = 50 - (deriveMetrics 50 pc45).premium :=
  (metric_identities 50 [pc45] (deriveMetrics 50 pc45) (by norm_num)
    (List.mem_singleton_self _)).2.2.2.1

/-- Claim C4 counterexample: the success record returned for the spec
scenario input carries no total_open_interest key at all (the dict
built at src/main.py lines 184-191 has no such key), so it does not
carry an aggregate equal to the summed open interest. -/
theorem total_oi_missing_cex :
    (commonProcessing "IBIT" 50 none none 0 [pc45]).lookup "total_open_interest" = none := by
  rfl

/-- Claim C4 (amended): the success record carries no
total_open_interest field at all; its keys are exactly ticker,
current_price, week52_high, week52_low, expiration and strategies, and
open interest appears only inside the per-strategy records. -/
theorem success_record_fields (ticker : String) (c : ℚ) (hi lo : Option ℚ)
    (exp : Int) (strategies : List (List (String × ℚ))) :
    (successDict ticker c hi lo exp strategies).map Prod.fst =
      ["ticker", "current_price", "week52_high", "week52_low", "expiration", "strategies"] ∧
    (successDict ticker c hi lo exp strategies).lookup "total_open_interest" = none := by
  exact ⟨rfl, rfl⟩

/-- Claim C5: the expiration scan returns a date exactly when some
candidate day-count d - r lies in the closed window, on both the
as-given scan and the sorted Polygon variant; it returns none on the
empty list, and the boundary offsets 20 and 40 are both accepted. -/
theorem select_expiration_window (refDay minDays maxDays : Int) (l : List Int) :
    ((selectExpiration refDay minDays maxDays l).isSome ↔
      ∃ d ∈ l, minDays ≤ d - refDay ∧ d - refDay ≤ maxDays) ∧
    ((polygonSelect refDay minDays maxDays l).isSome ↔
      ∃ d ∈ l, minDays ≤ d - refDay ∧ d - refDay ≤ maxDays) ∧
    selectExpiration refDay minDays maxDays [] = none ∧
    selectExpiration refDay 20 40 [refDay + 20] = some (refDay + 20) ∧
    selectExpiration refDay 20 40 [refDay + 40] = some (refDay + 40) := by
  refine ⟨?_, ?_, rfl, ?_, ?_⟩
  · simp [selectExpiration, List.find?_isSome, inWindow]
  · simp [polygonSelect, selectExpiration, List.find?_isSome, inWindow]
  · exact List.find?_cons_of_pos _ (by simp [inWindow])
  · exact List.find?_cons_of_pos _ (by simp [inWindow])

/-- Claim C6 counterexample: the yfinance-path selector scans the
candidates in the order given (src/main.py lines 137-143, no sort); on
the permutation day+35, day+25, day+50 of the P2 input with day 0 it
returns day+35, not day+25 as the claim requires. -/
theorem ascending_first_cex :
    ([35, 25, 50] : List Int).Perm [0 + 50, 0 + 25, 0 + 35] ∧
    selectExpiration 0 20 40 [35, 25, 50] = some 35 ∧
    selectExpiration 0 20 40 [35, 25, 50] ≠ some (0 + 25) := by
  refine ⟨by decide, by decide, by decide⟩

/-- Claim C6 (amended): the Polygon-path selector deduplicates and
sorts the candidates ascending before scanning and returns day+25 on
every permutation of the offsets day+50, day+25, day+35 with window
20 to 40; the yfinance-path selector scans in the order supplied by
the caller and returns the first in-window date in that order, which
for the input day+35, day+25, day+50 is day+35. -/
theorem ascending_first_amended (r : Int) (l : List Int)
    (h : l.Perm [r + 50, r + 25, r + 35]) :
    polygonSelect r 20 40 l = some (r + 25) ∧
    selectExpiration r 20 40 [r + 35, r + 25, r + 50] = some (r + 35) := by
  constructor
  · have hnd : ([r + 50, r + 25, r + 35] : List Int).Nodup := by
      simp
    have hlnd : l.Nodup := h.nodup_iff.mpr hnd
    have hded : l.dedup = l := List.dedup_eq_self.mpr hlnd
    have hsorted : (List.insertionSort (fun a b : Int => a ≤ b) l).Sorted
        (fun a b : Int => a ≤ b) := List.sorted_insertionSort _ l
    have hperm : (List.insertionSort (fun a b : Int => a ≤ b) l).Perm
        [r + 25, r + 35, r + 50] := by
      refine (List.perm_insertionSort _ l).trans (h.trans ?_)
      exact (List.perm_append_singleton (r + 50) [r + 25, r + 35]).symm
    have htargetSorted : ([r + 25, r + 35, r + 50] : List Int).Sorted
        (fun a b : Int => a ≤ b) := by
      simp [List.sorted_cons]
    have heq : List.insertionSort (fun a b : Int => a ≤ b) l = [r + 25, r + 35, r + 50] :=
      List.eq_of_perm_of_sorted hperm hsorted htargetSorted
    unfold polygonSelect
    rw [hded, heq]
    exact List.find?_cons_of_pos _ (by simp [inWindow])
  · exact List.find?_cons_of_pos _ (by simp [inWindow])

/-- Claim C6 witness: the Polygon-path selector applied to the
concrete permutation 50, 25, 35 with day 0 returns 25. -/
theorem ascending_first_amended_witness :
    polygonSelect 0 20 40 [50, 25, 35] = some (0 + 25) :=
  (ascending_first_amended 0 [50, 25, 35] (by decide)).1

/-- Claim C7 counterexample: the strategy record emitted for the spec
scenario input (surfaced inside the success dictionary) has no cap_gain
key: the column selection at src/main.py line 180 drops cap_gain before
the records are built. -/
theorem cap_gain_missing_cex :
    (commonProcessing "IBIT" 50 none none 0 [pc45]).lookup "strategies" =
      some (PyVal.records [strategyRecord (deriveMetrics 50 pc45)]) ∧
    (strategyRecord (deriveMetrics 50 pc45)).lookup "cap_gain" = none := by
  exact ⟨rfl, rfl⟩

/-- Claim C7 (amended): every emitted strategy record contains exactly
the seven fields strike, premium, impliedVolatility, openInterest,
total_return_pct, premium_yield_pct and downside_breakeven; cap_gain is
computed during derivation but dropped by the final column selection
and is absent from every emitted record. -/
theorem strategy_record_fields (c : ℚ) (xs : List PricedCandidate) :
    ∀ rec ∈ (strategiesSeq c xs).map strategyRecord,
      rec.map Prod.fst =
        ["strike", "premium", "impliedVolatility", "openInterest",
         "total_return_pct", "premium_yield_pct", "downside_breakeven"] ∧
      rec.lookup "cap_gain" = none := by
  intro rec hrec
  obtain ⟨row, _, rfl⟩ := List.mem_map.mp hrec
  exact ⟨rfl, rfl⟩

/-- Claim C7 witness: the emitted record of the scenario row carries
the seven selected keys and no cap_gain key. -/
theorem strategy_record_fields_witness :
    (strategyRecord (deriveMetrics 50 pc45)).lookup "cap_gain" = none :=
  (strategy_record_fields 50 [pc45] (strategyRecord (deriveMetrics 50 pc45))
    (List.mem_singleton_self _)).2

/-- Claim C8 counterexample: on empty raw calls the surfaced record is
the empty-result dictionary, which carries no total_open_interest key
at all, so the claimed total_open_interest equal to 0 does not hold. -/
theorem empty_result_oi_cex :
    yfDerive "IBIT" 50 none none 0 [] = emptyResultDict "IBIT" 50 none none 0 ∧
    (yfDerive "IBIT" 50 none none 0 []).lookup "total_open_interest" = none := by
  exact ⟨rfl, rfl⟩

/-- Claim C8 (amended): when the raw calls are empty or every record is
removed by the premium filter, the derivation returns without raising:
the yfinance path returns the empty-result dictionary, whose strategy
list is empty and which carries a message; the common processing of an
empty candidate list returns a success dictionary with an empty
strategy list; neither record carries an error key (fetch failures are
the records that do) and neither carries a total_open_interest key. -/
theorem empty_input_success (ticker : String) (c : ℚ) (hi lo : Option ℚ)
    (exp : Int) (rows : List YfCallRow) (h : yfCandidates rows = []) :
    yfDerive ticker c hi lo exp rows = emptyResultDict ticker c hi lo exp ∧
    (yfDerive ticker c hi lo exp rows).lookup "strategies" = some (PyVal.records []) ∧
    (yfDerive ticker c hi lo exp rows).lookup "error" = none ∧
    (yfDerive ticker c hi lo exp rows).lookup "total_open_interest" = none ∧
    (commonProcessing ticker c hi lo exp []).lookup "strategies" = some (PyVal.records []) ∧
    (commonProcessing ticker c hi lo exp []).lookup "error" = none ∧
    ∀ msg : String, (errorDict msg).lookup "error" = some (PyVal.str msg) := by
  have hy : yfDerive ticker c hi lo exp rows = emptyResultDict ticker c hi lo exp := by
    unfold yfDerive
    rw [h]
    rfl
  refine ⟨hy, ?_, ?_, ?_, rfl, rfl, fun _ => rfl⟩
  · rw [hy]
    rfl
  · rw [hy]
    rfl
  · rw [hy]
    rfl

/-- Claim C8 witness: a chain whose only row has last price 0 is
filtered out entirely and surfaces as the empty-result record. -/
theorem empty_input_success_witness :
    yfDerive "IBIT" 50 none none 0 [⟨60, some 0, some 2, 0, 0⟩] =
      emptyResultDict "IBIT" 50 none none 0 :=
  (empty_input_success "IBIT" 50 none none 0 [⟨60, some 0, some 2, 0, 0⟩] rfl).1

/-- Market snapshot used to exhibit the wall-clock dependence of the
per-ticker scan: one expiration at day 100 whose chain holds one call
record (strike 45, bid 6, open interest 100) that survives the
premium filter. -/
def mEx : MarketSnapshot :=
  ⟨50, none, none, [100], [(100, [⟨45, some 6, none, none, some 100⟩])]⟩

/-- Claim C9 counterexample: the per-ticker core reads the reference
day from the wall clock (datetime.now() at src/main.py lines 70 and
136), so two invocations on identical market inputs at different dates
differ: at day 70 the expiration at day 100 is 30 days out and a
success record is produced from its nonempty chain, at day 40 it is
60 days out and the scan fails with no suitable expiration. -/
theorem clock_dependence_cex :
    coreScan 70 "IBIT" mEx ≠ coreScan 40 "IBIT" mEx := by
  decide

/-- Claim C9 (amended): the core is a deterministic, side-effect-free
function of its explicit market inputs together with the current date
(identical inputs and identical date give identical outputs), but the
reference day is read from the wall clock inside the call rather than
passed in, so it is a hidden input: there exist identical explicit
inputs whose outputs differ across two invocation dates. -/
theorem core_determinism_amended :
    (∀ (t : Int) (ticker : String) (m₁ m₂ : MarketSnapshot),
        m₁ = m₂ → coreScan t ticker m₁ = coreScan t ticker m₂) ∧
    (∃ (t₁ t₂ : Int) (m : MarketSnapshot),
        coreScan t₁ "IBIT" m ≠ coreScan t₂ "IBIT" m) := by
  constructor
  · intro t ticker m₁ m₂ h
    rw [h]
  · exact ⟨70, 40, mEx, by decide⟩

/-- Claim C9 witness: determinism applied at the concrete snapshot and
date. -/
theorem core_determinism_amended_witness :
    coreScan 70 "IBIT" mEx = coreScan 70 "IBIT" mEx :=
  core_determinism_amended.1 70 "IBIT" mEx mEx rfl

/-- Claim C10: every row of the derived sequence, on either data path,
has a strictly positive premium, and consequently (for a positive
current price) its downside breakeven lies strictly below the current
price and its premium yield is strictly positive. -/
theorem emitted_premium_positive (c : ℚ) (hc : 0 < c)
    (rs : List PolygonCall) (rows : List YfCallRow) (row : StrategyRow)
    (h : row ∈ strategiesSeq c (polygonCandidates rs) ∨
         row ∈ strategiesSeq c (yfCandidates rows)) :
    0 < row.premium ∧ row.downside_breakeven < c ∧ 0 < row.premium_yield_pct := by
  have hprem : 0 < row.premium ∧ row.downside_breakeven = c - row.premium ∧
      row.premium_yield_pct = row.premium / c * 100 := by
    rcases h with h | h
    · obtain ⟨cand, hmem, _, rfl⟩ := mem_strategiesSeq h
      exact ⟨(mem_polygonCandidates hmem).1, rfl, rfl⟩
    · obtain ⟨cand, hmem, _, rfl⟩ := mem_strategiesSeq h
      exact ⟨(mem_yfCandidates hmem).1, rfl, rfl⟩
  obtain ⟨hp, hdb, hpy⟩ := hprem
  refine ⟨hp, ?_, ?_⟩
  · rw [hdb]
    linarith
  · rw [hpy]
    have hdiv := div_pos hp hc
    linarith

/-- Claim C10 witness: the scenario row derived from the Polygon record
with bid 6 at strike 45 has a strictly positive premium. -/
theorem emitted_premium_positive_witness :
    0 < (deriveMetrics 50 pc45).premium :=
  (emitted_premium_positive 50 (by norm_num) [⟨45, some 6, none, none, some 100⟩] []
    (deriveMetrics 50 pc45) (Or.inl (List.mem_singleton_self _))).1

end CoveredCallScanner
